import Mathlib

/-!
Verification of the PCO camera acquisition pipeline
(`src/instrumental/drivers/cameras/pco.py`).

The Python module is effectful: it mutates a camera object and calls into an
opaque vendor driver (`NicePCO` / `SC2_Cam.dll`) and the OS event-wait
primitive.  We embed it shallowly:

* the mutable fields of `PCO_Camera` become a `CamState` record;
* every driver/OS call is recorded in an explicit trace (`List DrvCall`), and
  the values the driver would return (sizes, camera description, buffer
  status, the outcome of `WaitForSingleObject`, ...) are passed in as
  explicit oracle arguments, since the driver is an external collaborator;
* a Python `raise` becomes an `Except`-style error result; the state at the
  moment of the raise is returned alongside it, because Python exceptions do
  not roll back mutations.

The source is Python 2 (it uses the `buffer` builtin and has no
`__future__.division` import), so `/` on integers is floor division; we model
it with `Nat`/`Int` division accordingly.
-/

namespace PCO

/-- Masked CameraLink data format (`info.DataFormat & PCO_CL_DATAFORMAT_MASK`).
The five constants the source's `depth_map` knows are modelled as
constructors; any other masked value is `unknown`. -/
inductive DataFormat
  | f5x16
  | f5x12L
  | f5x12
  | f5x12R
  | f10x8
  | unknown
  deriving DecidableEq, Repr

/-- The `depth_map` of `_data_depth`: bits per transferred pixel for each
recognized data format; `none` models the "Unrecognized dataformat" raise. -/
def depth_map : DataFormat → Option Nat
  | .f5x16 => some 16
  | .f5x12L => some 16
  | .f5x12 => some 12
  | .f5x12R => some 12
  | .f10x8 => some 8
  | .unknown => none

/-- `BufferInfo(num, address, event)`: driver buffer number, base address and
completion-event handle (both opaque, modelled as `Nat`). -/
structure BufferInfo where
  num : Nat
  address : Nat
  event : Nat
  deriving DecidableEq, Repr

/-- The two fields of the camera description that `_set_ROI` reads:
`wRoiHorStepsDESC` and `wRoiVertStepsDESC`. -/
structure CamDesc where
  wRoiHorStepsDESC : Nat
  wRoiVertStepsDESC : Nat
  deriving DecidableEq, Repr

/-- The quadruple returned by the driver's `GetSizes`:
`(x_act, y_act, x_max, y_max)` = active width/height and max width/height. -/
structure Sizes where
  x_act : Nat
  y_act : Nat
  x_max : Nat
  y_max : Nat
  deriving DecidableEq, Repr

/-- One call into the vendor driver or the OS; the trace of these calls lets
us state "no device call is made" and "the driver is told to cancel". -/
inductive DrvCall
  | getCameraDescription
  | getSizes
  | getTransferParameter
  | setROI (x0 y0 x1 y1 : Int)
  | getROI
  | waitForSingleObject (event : Nat) (timeout_ms : Nat)
  | getBufferStatus (num : Nat)
  | resetEvent (event : Nat)
  | addBufferEx (num width height depth : Nat)
  | cancelImages
  | setRecordingState (running : Bool)
  | allocateBuffer (size : Nat)
  | freeBuffer (num : Nat)
  deriving DecidableEq, Repr

/-- The errors the module can raise, named after the spec's taxonomy; each
constructor corresponds to a concrete `raise` site in the source. -/
inductive PCOError
  | invalidGeometry (msg : String)
  | outOfRange (msg : String)
  | driverError (msg : String)
  | noBuffersQueued
  | failedToGrab
  | timeout
  | attributeError (attr : String)
  | unrecognizedDataFormat
  deriving DecidableEq, Repr

/-- Modelled from the spec: `get_error_text` wraps the externally compiled
`errortext` lookup module (not part of this repository); the spec says a
non-zero driver status is "translated to a human-readable message via a
lookup service".  We model the lookup as an injective rendering of the code,
which keeps the device-supplied code recoverable from the message. -/
def get_error_text (code : Nat) : String :=
  "PCO error " ++ toString code

/-- The mutable state of a `PCO_Camera` object: `self.buffers`, `self.queue`,
`self._buf_size`, `self.shutter`, the two dirty flags with their caches,
`self.last_buffer` (absent until first assigned, hence `Option`), and the
device's recording state (driven through `SetRecordingState`). -/
structure CamState where
  buffers : List BufferInfo
  queue : List BufferInfo
  buf_size : Nat
  shutter : Option String
  sizes_changed : Bool
  transfer_param_changed : Bool
  cached_sizes : Sizes
  cached_cam_desc : Option CamDesc
  cached_dataformat : DataFormat
  last_buffer : Option BufferInfo
  recording : Bool
  deriving DecidableEq, Repr

/-- `_get_sizes`: returns the cached sizes, re-fetching from the driver
(oracle argument `drvSizes`) when the dirty flag is set. -/
def _get_sizes (st : CamState) (drvSizes : Sizes) :
    Sizes × CamState × List DrvCall :=
  if st.sizes_changed then
    (drvSizes,
     { st with cached_sizes := drvSizes, sizes_changed := false },
     [DrvCall.getSizes])
  else
    (st.cached_sizes, st, [])

/-- `_get_camera_description`: cached camera description, fetched from the
driver (oracle argument `drvDesc`) on first use. -/
def _get_camera_description (st : CamState) (drvDesc : CamDesc) :
    CamDesc × CamState × List DrvCall :=
  match st.cached_cam_desc with
  | some d => (d, st, [])
  | none =>
      (drvDesc, { st with cached_cam_desc := some drvDesc },
       [DrvCall.getCameraDescription])

/-- `_get_transfer_parameter`, reduced to the only field the module reads,
the masked `DataFormat`; re-fetched (oracle argument `drvFormat`) when the
dirty flag is set. -/
def _get_transfer_parameter (st : CamState) (drvFormat : DataFormat) :
    DataFormat × CamState × List DrvCall :=
  if st.transfer_param_changed then
    (drvFormat,
     { st with cached_dataformat := drvFormat, transfer_param_changed := false },
     [DrvCall.getTransferParameter])
  else
    (st.cached_dataformat, st, [])

/-- The data format `_get_transfer_parameter` will yield on `st`. -/
def effective_format (st : CamState) (drvFormat : DataFormat) : DataFormat :=
  if st.transfer_param_changed then drvFormat else st.cached_dataformat

/-- The sizes `_get_sizes` will yield on `st`. -/
def effective_sizes (st : CamState) (drvSizes : Sizes) : Sizes :=
  if st.sizes_changed then drvSizes else st.cached_sizes

/-- `_data_depth`: looks the masked data format up in `depth_map`, raising on
an unrecognized format. -/
def _data_depth (st : CamState) (drvFormat : DataFormat) :
    Except PCOError Nat × CamState × List DrvCall :=
  let r := _get_transfer_parameter st drvFormat
  match depth_map r.1 with
  | some d => (Except.ok d, r.2.1, r.2.2)
  | none => (Except.error PCOError.unrecognizedDataFormat, r.2.1, r.2.2)

/-- The byte count `_frame_size` computes:
`(width * height * self._data_depth()) / 16 * 2` with Python 2 floor
division, i.e. `Nat` division. -/
def frame_size_formula (width height depth : Nat) : Nat :=
  width * height * depth / 16 * 2

/-- The spec's stated formula for the per-buffer byte size:
`ceil(width*height*bit_depth/16)*2`. -/
def spec_frame_size (width height depth : Nat) : Nat :=
  ((width * height * depth + 15) / 16) * 2

/-- `_frame_size`: current width/height via `_get_sizes`, depth via
`_data_depth`, combined by `frame_size_formula`. -/
def _frame_size (st : CamState) (drvSizes : Sizes) (drvFormat : DataFormat) :
    Except PCOError Nat × CamState × List DrvCall :=
  let s := _get_sizes st drvSizes
  let d := _data_depth s.2.1 drvFormat
  match d.1 with
  | Except.ok depth =>
      (Except.ok (frame_size_formula s.1.x_act s.1.y_act depth),
       d.2.1, s.2.2 ++ d.2.2)
  | Except.error e => (Except.error e, d.2.1, s.2.2 ++ d.2.2)

/-- `_clear_queue`: empties the Python-side FIFO and tells the driver to
cancel all outstanding transfers (`CancelImages`). -/
def _clear_queue (st : CamState) : CamState × List DrvCall :=
  ({ st with queue := [] }, [DrvCall.cancelImages])

/-- `_free_buffers`: frees every buffer back to the driver and clears the
pool. -/
def _free_buffers (st : CamState) : CamState × List DrvCall :=
  ({ st with buffers := [] },
   st.buffers.map (fun b => DrvCall.freeBuffer b.num))

/-- `_push_on_queue`: computes current width/height/depth, calls the driver's
`AddBufferEx`, and appends the buffer to the FIFO.  (A driver failure of
`AddBufferEx` itself would propagate in the source; the submission call is
modelled as accepted, which is the only case the claims quantify over.) -/
def _push_on_queue (st : CamState) (drvSizes : Sizes) (drvFormat : DataFormat)
    (buf : BufferInfo) :
    Except PCOError Unit × CamState × List DrvCall :=
  let s := _get_sizes st drvSizes
  let d := _data_depth s.2.1 drvFormat
  match d.1 with
  | Except.ok depth =>
      (Except.ok (),
       { d.2.1 with queue := d.2.1.queue ++ [buf] },
       s.2.2 ++ d.2.2 ++ [DrvCall.addBufferEx buf.num s.1.x_act s.1.y_act depth])
  | Except.error e => (Except.error e, d.2.1, s.2.2 ++ d.2.2)

/-- Outcome of the OS `WaitForSingleObject` call: `WAIT_OBJECT_0`,
`WAIT_TIMEOUT`, or any other return value (the "wait failed" branch). -/
inductive WaitOutcome
  | signaled
  | timedOut
  | failed
  deriving DecidableEq, Repr

/-- `wait_for_frame(timeout)` (timeout in ms after `unit_mag`; negative
values clamped to 0).  Oracle arguments: `wres` is the outcome of the OS
wait, `drv_status` the driver status `GetBufferStatus` would report for the
head buffer, `drvSizes`/`drvFormat` feed the cache re-fetches a continuous-
mode resubmission may need.  Returns the Python return value (`true`/`false`)
or the raised error, the state after the call, and the driver-call trace. -/
def wait_for_frame (st : CamState) (timeout : Int) (wres : WaitOutcome)
    (drv_status : Nat) (drvSizes : Sizes) (drvFormat : DataFormat) :
    Except PCOError Bool × CamState × List DrvCall :=
  match st.queue with
  | [] => (Except.error PCOError.noBuffersQueued, st, [])
  | buf :: rest =>
      let t : Int := max 0 timeout
      let wcall := DrvCall.waitForSingleObject buf.event t.toNat
      match wres with
      | WaitOutcome.timedOut => (Except.ok false, st, [wcall])
      | WaitOutcome.failed =>
          (Except.error PCOError.failedToGrab, st, [wcall])
      | WaitOutcome.signaled =>
          if drv_status ≠ 0 then
            (Except.error (PCOError.driverError (get_error_text drv_status)),
             st, [wcall, DrvCall.getBufferStatus buf.num])
          else
            let calls := [wcall, DrvCall.getBufferStatus buf.num,
                          DrvCall.resetEvent buf.event]
            let st1 := { st with queue := rest, last_buffer := some buf }
            if st1.shutter = some "continuous" then
              let p := _push_on_queue st1 drvSizes drvFormat buf
              match p.1 with
              | Except.ok _ => (Except.ok true, p.2.1, calls ++ p.2.2)
              | Except.error e => (Except.error e, p.2.1, calls ++ p.2.2)
            else
              (Except.ok true, st1, calls)

/-- `_set_ROI(x0, y0, x1, y1)`.  Checks the step constraints from the camera
description, then the horizontal (dual-ADC) and vertical (pco.edge) symmetry
about the sensor centre — both checks are unconditional in the source — and
only then calls the driver's `SetROI` with the one-based coordinates
`(x0+1, y0+1, x1, y1)`, finally marking the cached sizes dirty.  Oracle
arguments: `drvDesc` (camera description if not cached), `drvSizes` (sizes if
cache dirty, read through the `max_width`/`max_height` properties), and
`setRoiStatus`, the status code the driver returns for `SetROI` (0 = ok;
`0xA00A3001` is the range-violation code the source rewords). -/
def _set_ROI (st : CamState) (x0 y0 x1 y1 : Int) (drvDesc : CamDesc)
    (drvSizes : Sizes) (setRoiStatus : Nat) :
    Except PCOError Unit × CamState × List DrvCall :=
  let dsc := _get_camera_description st drvDesc
  let hstep := dsc.1.wRoiHorStepsDESC
  let vstep := dsc.1.wRoiVertStepsDESC
  if x0 % (hstep : Int) ≠ 0 ∨ x1 % (hstep : Int) ≠ 0 then
    (Except.error (PCOError.invalidGeometry
       ("ROI x-coordinates must be a multiple of " ++ toString hstep)),
     dsc.2.1, dsc.2.2)
  else if y0 % (vstep : Int) ≠ 0 ∨ y1 % (vstep : Int) ≠ 0 then
    (Except.error (PCOError.invalidGeometry
       ("ROI y-coordinates must be a multiple of " ++ toString vstep)),
     dsc.2.1, dsc.2.2)
  else
    let sx := _get_sizes dsc.2.1 drvSizes
    let cx : Int := (sx.1.x_max : Int) / 2
    if cx - x0 ≠ x1 - cx then
      (Except.error (PCOError.invalidGeometry
         "ROI x-coordinates must be symmetric when in dual-ADC mode"),
       sx.2.1, dsc.2.2 ++ sx.2.2)
    else
      let sy := _get_sizes sx.2.1 drvSizes
      let cy : Int := (sy.1.y_max : Int) / 2
      if cy - y0 ≠ y1 - cy then
        (Except.error (PCOError.invalidGeometry
           "ROI y-coordinates must be symmetric"),
         sy.2.1, dsc.2.2 ++ sx.2.2 ++ sy.2.2)
      else
        let calls := dsc.2.2 ++ sx.2.2 ++ sy.2.2 ++
          [DrvCall.setROI (x0 + 1) (y0 + 1) x1 y1]
        if setRoiStatus ≠ 0 then
          if setRoiStatus = 0xA00A3001 then
            (Except.error (PCOError.outOfRange
               ("ROI coordinates out of range; given x0,y0 = " ++ toString x0 ++
                "," ++ toString y0 ++ " and x1,y1 = " ++ toString x1 ++ "," ++
                toString y1 ++
                " x0 must be in the range [0, width-1], and x1 must be in the" ++
                " range [x0+1, width]; similarly for y0/y1")),
             sy.2.1, calls)
          else
            (Except.error (PCOError.driverError (get_error_text setRoiStatus)),
             sy.2.1, calls)
        else
          (Except.ok (), { sy.2.1 with sizes_changed := true }, calls)

/-- `_get_ROI`: reads the driver's ROI registers (oracle argument `drvROI`,
the quadruple the driver's `GetROI` reports) and shifts the start coordinates
back to the zero-based convention: `(x0-1, y0-1, x1, y1)`. -/
def _get_ROI (st : CamState) (drvROI : Int × Int × Int × Int) :
    (Int × Int × Int × Int) × CamState × List DrvCall :=
  ((drvROI.1 - 1, drvROI.2.1 - 1, drvROI.2.2.1, drvROI.2.2.2), st,
   [DrvCall.getROI])

/-- The default buffer count `_allocate_buffers` uses when `nbufs is None`:
the current pool size if it exceeds 1, else 2 in continuous mode, else 1. -/
def default_nbufs (buffers : List BufferInfo) (shutter : Option String) : Nat :=
  if buffers.length > 1 then buffers.length
  else if shutter = some "continuous" then 2
  else 1

/-- `_allocate_buffers(nbufs)`: resolves the default count, stops recording,
clears the queue, frees the old pool, computes `_frame_size` into
`self._buf_size`, then allocates `nbufs` fresh buffers from the driver
(`newBuf i` is the buffer the driver's `AllocateBuffer` hands back on the
`i`-th request). -/
def _allocate_buffers (st : CamState) (nbufsArg : Option Nat)
    (drvSizes : Sizes) (drvFormat : DataFormat) (newBuf : Nat → BufferInfo) :
    Except PCOError Unit × CamState × List DrvCall :=
  let nbufs := match nbufsArg with
    | some n => n
    | none => default_nbufs st.buffers st.shutter
  let st1 := { st with recording := false }
  let q := _clear_queue st1
  let f := _free_buffers q.1
  let fs := _frame_size f.1 drvSizes drvFormat
  match fs.1 with
  | Except.ok size =>
      (Except.ok (),
       { fs.2.1 with
           buf_size := size,
           buffers := fs.2.1.buffers ++ (List.range nbufs).map newBuf },
       DrvCall.setRecordingState false :: q.2 ++ f.2 ++ fs.2.2 ++
         (List.range nbufs).map (fun _ => DrvCall.allocateBuffer size))
  | Except.error e =>
      (Except.error e, fs.2.1,
       DrvCall.setRecordingState false :: q.2 ++ f.2 ++ fs.2.2)

/-- `latest_frame`: reads `self.last_buffer`; on a camera where no wait has
ever succeeded the attribute was never assigned, which is a Python
`AttributeError`.  Otherwise it reinterprets the buffer memory (not
modelled beyond the size/shape computation) without touching the queue. -/
def latest_frame (st : CamState) (drvSizes : Sizes) (drvFormat : DataFormat) :
    Except PCOError Unit × CamState × List DrvCall :=
  match st.last_buffer with
  | none => (Except.error (PCOError.attributeError "last_buffer"), st, [])
  | some _ =>
      let fs := _frame_size st drvSizes drvFormat
      let s := _get_sizes fs.2.1 drvSizes
      match fs.1 with
      | Except.ok _ => (Except.ok (), s.2.1, fs.2.2 ++ s.2.2)
      | Except.error e => (Except.error e, fs.2.1, fs.2.2)

/-- `PCO_Camera.__init__` (the state-relevant part): fresh empty pool and
queue, `_buf_size = 0`, `shutter = None`, both dirty flags set, no cached
description, and — crucially — `self.last_buffer` never assigned; then it
reads the sizes and programs the full-sensor ROI.  The `cached_sizes` and
`cached_dataformat` seeds are irrelevant placeholders: their dirty flags are
set, so they are overwritten before first use. -/
def pco_camera_init (drvSizes : Sizes) (drvDesc : CamDesc)
    (setRoiStatus : Nat) :
    Except PCOError Unit × CamState × List DrvCall :=
  let st0 : CamState :=
    { buffers := [], queue := [], buf_size := 0, shutter := none,
      sizes_changed := true, transfer_param_changed := true,
      cached_sizes := ⟨0, 0, 0, 0⟩, cached_cam_desc := none,
      cached_dataformat := DataFormat.unknown, last_buffer := none,
      recording := false }
  let s := _get_sizes st0 drvSizes
  let r := _set_ROI s.2.1 0 0 (s.1.x_max : Int) (s.1.y_max : Int) drvDesc
    drvSizes setRoiStatus
  (r.1, r.2.1, s.2.2 ++ r.2.2)

/-- Result of the drain phase of `get_captured_image`. `outOfOracle` is a
model artifact only: the supplied list of wait outcomes ran out while buffers
were still queued (in the source the wait would simply block again). -/
inductive DrainResult
  | done (nframes : Nat)
  | raised (e : PCOError)
  | outOfOracle (nframes : Nat)
  deriving DecidableEq, Repr

/-- The `while self.queue:` loop of `get_captured_image`: wait on the head
buffer, raise `Timeout` on a `False` return, collect the frame and continue.
Each iteration consumes one `(wait outcome, driver sub-status)` pair from the
oracle.  The shrinking wall-clock timeout budget of the source is abstracted:
the outcome of each wait is given by the oracle, not computed from time. -/
def drain_loop (st : CamState) (oracle : List (WaitOutcome × Nat))
    (timeout : Int) (drvSizes : Sizes) (drvFormat : DataFormat) (acc : Nat) :
    DrainResult × CamState × List DrvCall :=
  match st.queue with
  | [] => (DrainResult.done acc, st, [])
  | _ :: _ =>
      match oracle with
      | [] => (DrainResult.outOfOracle acc, st, [])
      | (wres, drv) :: rest =>
          let w := wait_for_frame st timeout wres drv drvSizes drvFormat
          match w.1 with
          | Except.error e => (DrainResult.raised e, w.2.1, w.2.2)
          | Except.ok false =>
              (DrainResult.raised PCOError.timeout, w.2.1, w.2.2)
          | Except.ok true =>
              let d := drain_loop w.2.1 rest timeout drvSizes drvFormat (acc + 1)
              (d.1, d.2.1, w.2.2 ++ d.2.2)

/-- `get_captured_image(timeout)`: first reads the sizes and computes the
frame size — note these run *before* the `try`, so an error there propagates
with no cleanup — then drains the queue inside `try ... finally`, the
`finally` stopping recording and clearing/cancelling the queue on every exit
from the drain. -/
def get_captured_image (st : CamState) (timeout : Int)
    (oracle : List (WaitOutcome × Nat)) (drvSizes : Sizes)
    (drvFormat : DataFormat) :
    DrainResult × CamState × List DrvCall :=
  let s := _get_sizes st drvSizes
  let fs := _frame_size s.2.1 drvSizes drvFormat
  match fs.1 with
  | Except.error e => (DrainResult.raised e, fs.2.1, s.2.2 ++ fs.2.2)
  | Except.ok _ =>
      let d := drain_loop fs.2.1 oracle timeout drvSizes drvFormat 0
      let st1 := { d.2.1 with recording := false }
      let c := _clear_queue st1
      (d.1, c.1,
       s.2.2 ++ fs.2.2 ++ d.2.2 ++ [DrvCall.setRecordingState false] ++ c.2)

/-- `n` consecutive `wait_for_frame` calls, each one with the event signaled
and a zero driver sub-status (i.e. `n` consecutive successful waits). -/
def iterate_waits (st : CamState) (n : Nat) (timeout : Int) (drvSizes : Sizes)
    (drvFormat : DataFormat) : CamState :=
  match n with
  | 0 => st
  | n + 1 =>
      iterate_waits
        (wait_for_frame st timeout WaitOutcome.signaled 0 drvSizes drvFormat).2.1
        n timeout drvSizes drvFormat

/-! ### Concrete fixtures used by witnesses and counterexamples -/

/-- A concrete buffer: driver number 7, some address, event handle 42. -/
def buf0 : BufferInfo := ⟨7, 100, 41⟩

/-- A second concrete buffer. -/
def buf1 : BufferInfo := ⟨8, 200, 43⟩

/-- Concrete sizes: a 4×4 active area on a 4×4 sensor. -/
def sizes4 : Sizes := ⟨4, 4, 4, 4⟩

/-- Camera description with horizontal and vertical ROI step 1. -/
def desc11 : CamDesc := ⟨1, 1⟩

/-- Camera description with horizontal and vertical ROI step 2. -/
def desc22 : CamDesc := ⟨2, 2⟩

/-- A camera mid-session: one buffer allocated and queued, caches warm,
recording on, no frame retrieved yet. -/
def baseState : CamState :=
  { buffers := [buf0], queue := [buf0], buf_size := 2, shutter := none,
    sizes_changed := false, transfer_param_changed := false,
    cached_sizes := sizes4, cached_cam_desc := some desc11,
    cached_dataformat := DataFormat.f5x16, last_buffer := none,
    recording := true }

/-- A continuous-mode session: two buffers allocated, both queued, caches
warm, recording on. -/
def contState : CamState :=
  { buffers := [buf0, buf1], queue := [buf0, buf1], buf_size := 32,
    shutter := some "continuous", sizes_changed := false,
    transfer_param_changed := false, cached_sizes := sizes4,
    cached_cam_desc := some desc11, cached_dataformat := DataFormat.f5x16,
    last_buffer := none, recording := true }

end PCO

namespace PCO

/-! ### Theorems -/

/-- C7: for every timeout value (positive, zero, or negative) and every
possible wait outcome and driver status, `wait_for_frame` on an empty
acquisition queue fails with `NoBuffersQueued`, leaves the state unchanged,
and makes no driver or OS call (empty trace). -/
theorem C7_empty_queue_no_buffers_queued (st : CamState) (timeout : Int)
    (wres : WaitOutcome) (drv_status : Nat) (drvSizes : Sizes)
    (drvFormat : DataFormat) (h : st.queue = []) :
    wait_for_frame st timeout wres drv_status drvSizes drvFormat =
      (Except.error PCOError.noBuffersQueued, st, []) := by
  simp [wait_for_frame, h]

/-- C7 witness: a camera with nothing queued, a negative timeout. -/
theorem C7_witness :
    ({ baseState with queue := [] } : CamState).queue = [] ∧
    wait_for_frame { baseState with queue := [] } (-5) WaitOutcome.signaled 0
        sizes4 DataFormat.f5x16 =
      (Except.error PCOError.noBuffersQueued, { baseState with queue := [] },
       []) :=
  ⟨rfl, C7_empty_queue_no_buffers_queued _ (-5) WaitOutcome.signaled 0 sizes4
    DataFormat.f5x16 rfl⟩

/-- C8: if the event wait times out, `wait_for_frame` returns the `false`
sentinel and the state — queue and `last_buffer` included — is exactly the
state before the call; the only external call is the OS wait itself. -/
theorem C8_timed_out_state_unchanged (st : CamState) (timeout : Int)
    (drv_status : Nat) (drvSizes : Sizes) (drvFormat : DataFormat)
    (buf : BufferInfo) (rest : List BufferInfo) (h : st.queue = buf :: rest) :
    wait_for_frame st timeout WaitOutcome.timedOut drv_status drvSizes
        drvFormat =
      (Except.ok false, st,
       [DrvCall.waitForSingleObject buf.event (max 0 timeout).toNat]) := by
  simp [wait_for_frame, h]

/-- C8 witness: the spec scenario — one buffer submitted, no frame ready,
`wait_for_frame(timeout=0)` returns the timeout sentinel and the queue still
has 1 entry (and `last_buffer` is still unset). -/
theorem C8_witness :
    baseState.queue = [buf0] ∧
    (wait_for_frame baseState 0 WaitOutcome.timedOut 0 sizes4
        DataFormat.f5x16).1 = Except.ok false ∧
    (wait_for_frame baseState 0 WaitOutcome.timedOut 0 sizes4
        DataFormat.f5x16).2.1.queue.length = 1 ∧
    (wait_for_frame baseState 0 WaitOutcome.timedOut 0 sizes4
        DataFormat.f5x16).2.1.last_buffer = baseState.last_buffer := by
  have h := C8_timed_out_state_unchanged baseState 0 0 sizes4
    DataFormat.f5x16 buf0 [] rfl
  rw [h]
  exact ⟨rfl, rfl, rfl, rfl⟩

/-- C1 counterexample: with one queued buffer whose completion event fires
with driver sub-status 5, `wait_for_frame` does raise the `DriverError`
carrying the device-supplied message, but the buffer has NOT been popped:
the queue after the call is still `[buf0]`, not empty — contradicting the
claim that the buffer "has been popped from the acquisition queue". -/
theorem C1_counterexample :
    (wait_for_frame baseState 1000 WaitOutcome.signaled 5 sizes4
        DataFormat.f5x16).1 =
      Except.error (PCOError.driverError (get_error_text 5)) ∧
    (wait_for_frame baseState 1000 WaitOutcome.signaled 5 sizes4
        DataFormat.f5x16).2.1.queue = baseState.queue ∧
    baseState.queue = [buf0] ∧ ([buf0] : List BufferInfo) ≠ [] := by
  refine ⟨rfl, rfl, rfl, by decide⟩

/-- C1 (amended): if the event wait is signaled and the driver reports a
non-zero sub-status for the head buffer, `wait_for_frame` raises
`DriverError` carrying the device-supplied message for that status, and the
buffer is NOT popped: the entire state (queue and pool included) is exactly
as before the call, the buffer still at the head of the queue; the only
external calls are the OS wait and the status query. -/
theorem C1_driver_error_buffer_stays_queued (st : CamState) (timeout : Int)
    (drv_status : Nat) (drvSizes : Sizes) (drvFormat : DataFormat)
    (buf : BufferInfo) (rest : List BufferInfo)
    (hq : st.queue = buf :: rest) (hs : drv_status ≠ 0) :
    wait_for_frame st timeout WaitOutcome.signaled drv_status drvSizes
        drvFormat =
      (Except.error (PCOError.driverError (get_error_text drv_status)), st,
       [DrvCall.waitForSingleObject buf.event (max 0 timeout).toNat,
        DrvCall.getBufferStatus buf.num]) := by
  simp [wait_for_frame, hq, hs]

/-- C1 witness: concrete instance of the amended theorem. -/
theorem C1_witness :
    baseState.queue = buf0 :: [] ∧ (5 : Nat) ≠ 0 ∧
    wait_for_frame baseState 1000 WaitOutcome.signaled 5 sizes4
        DataFormat.f5x16 =
      (Except.error (PCOError.driverError (get_error_text 5)), baseState,
       [DrvCall.waitForSingleObject buf0.event 1000,
        DrvCall.getBufferStatus buf0.num]) := by
  refine ⟨rfl, by decide, ?_⟩
  exact C1_driver_error_buffer_stays_queued baseState 1000 5 sizes4
    DataFormat.f5x16 buf0 [] rfl (by decide)

/-- Shared evaluation lemma: the state `_allocate_buffers` produces, on
success.  The pool after allocation is exactly the `nbufs` fresh buffers, and
`buf_size` is `frame_size_formula` applied to the effective sizes and depth. -/
lemma allocate_buffers_eval (st : CamState) (nbufsArg : Option Nat)
    (drvSizes : Sizes) (drvFormat : DataFormat) (newBuf : Nat → BufferInfo)
    (d : Nat) (hd : depth_map (effective_format st drvFormat) = some d) :
    (_allocate_buffers st nbufsArg drvSizes drvFormat newBuf).1 =
      Except.ok () ∧
    (_allocate_buffers st nbufsArg drvSizes drvFormat newBuf).2.1.buffers =
      (List.range (match nbufsArg with
        | some n => n
        | none => default_nbufs st.buffers st.shutter)).map newBuf ∧
    (_allocate_buffers st nbufsArg drvSizes drvFormat newBuf).2.1.buf_size =
      frame_size_formula (effective_sizes st drvSizes).x_act
        (effective_sizes st drvSizes).y_act d := by
  unfold _allocate_buffers _frame_size _data_depth _clear_queue _free_buffers
  unfold effective_format at hd
  cases hsz : st.sizes_changed <;>
    cases htp : st.transfer_param_changed <;>
      simp_all [_get_sizes, _get_transfer_parameter, effective_sizes]

/-- C2 counterexample: with a 3×1 active area and the 8-bit data format
(`PCO_CL_DATAFORMAT_10x8`), allocation computes a per-buffer size of
`3*1*8/16*2 = 2` bytes (Python 2 floor division), while the claimed formula
`ceil(3*1*8/16)*2 = 4` gives 4 — the code rounds DOWN, not up. -/
theorem C2_counterexample :
    (_allocate_buffers
        { baseState with cached_sizes := ⟨3, 1, 4, 4⟩,
                         cached_dataformat := DataFormat.f10x8 }
        (some 1) ⟨3, 1, 4, 4⟩ DataFormat.f10x8
        (fun i => ⟨i, i, i⟩)).2.1.buf_size = 2 ∧
    spec_frame_size 3 1 8 = 4 ∧ (2 : Nat) ≠ 4 :=
  ⟨rfl, rfl, by decide⟩

/-- C2 (amended): the per-buffer byte size computed at allocation time is
`width*height*bit_depth/16*2` with FLOOR (truncating) division — the byte
count is rounded *down* to a whole number of 16-bit words; it agrees with
the spec's ceiling formula exactly when `width*height*bit_depth` is a
multiple of 16 (always for depth 16; for depth 8 when `width*height` is
even; for depth 12 when `width*height` is a multiple of 4). -/
theorem C2_frame_size_rounds_down (st : CamState) (nbufsArg : Option Nat)
    (drvSizes : Sizes) (drvFormat : DataFormat) (newBuf : Nat → BufferInfo)
    (d : Nat) (hd : depth_map (effective_format st drvFormat) = some d) :
    (_allocate_buffers st nbufsArg drvSizes drvFormat newBuf).2.1.buf_size =
      (effective_sizes st drvSizes).x_act * (effective_sizes st drvSizes).y_act
        * d / 16 * 2 ∧
    ∀ w h dep : Nat,
      (frame_size_formula w h dep = spec_frame_size w h dep ↔
        w * h * dep % 16 = 0) := by
  constructor
  · exact (allocate_buffers_eval st nbufsArg drvSizes drvFormat newBuf d
      hd).2.2
  · intro w h dep
    unfold frame_size_formula spec_frame_size
    omega

/-- C2 witness: a 4×4 area at depth 16 gives `4*4*16/16*2 = 32` bytes, and
there the floor formula agrees with the spec's ceiling formula. -/
theorem C2_witness :
    depth_map (effective_format baseState DataFormat.f5x16) = some 16 ∧
    (_allocate_buffers baseState (some 1) sizes4 DataFormat.f5x16
        (fun i => ⟨i, i, i⟩)).2.1.buf_size = 32 ∧
    (frame_size_formula 4 4 16 = spec_frame_size 4 4 16 ↔
      4 * 4 * 16 % 16 = 0) := by
  have h := C2_frame_size_rounds_down baseState (some 1) sizes4
    DataFormat.f5x16 (fun i => ⟨i, i, i⟩) 16 rfl
  exact ⟨rfl, h.1, h.2 4 4 16⟩

/-- C4 counterexample: with a pool of exactly one buffer and a continuous
prior session, `allocate` with `n` omitted resizes the pool to 2, not to the
current pool size 1 — the current size is reused only when it exceeds 1. -/
theorem C4_counterexample :
    ({ baseState with shutter := some "continuous" } : CamState).buffers.length
        = 1 ∧
    (_allocate_buffers { baseState with shutter := some "continuous" } none
        sizes4 DataFormat.f5x16 (fun i => ⟨i, i, i⟩)).2.1.buffers.length = 2 ∧
    (2 : Nat) ≠ 1 :=
  ⟨rfl, rfl, by decide⟩

/-- C4 (amended): if `allocate` is called with `n` omitted, the new pool size
is the current pool size only when that size is GREATER THAN 1; otherwise
(pool empty or a single buffer) it is 2 if the prior session was continuous,
and 1 otherwise. -/
theorem C4_default_pool_size (st : CamState) (drvSizes : Sizes)
    (drvFormat : DataFormat) (newBuf : Nat → BufferInfo) (d : Nat)
    (hd : depth_map (effective_format st drvFormat) = some d) :
    (_allocate_buffers st none drvSizes drvFormat newBuf).1 = Except.ok () ∧
    (_allocate_buffers st none drvSizes drvFormat newBuf).2.1.buffers.length =
      (if st.buffers.length > 1 then st.buffers.length
       else if st.shutter = some "continuous" then 2 else 1) := by
  have h := allocate_buffers_eval st none drvSizes drvFormat newBuf d hd
  refine ⟨h.1, ?_⟩
  rw [h.2.1]
  simp [default_nbufs]

/-- C4 witness: pool of two buffers, not continuous — the pool size 2 is
reused. -/
theorem C4_witness :
    depth_map (effective_format { baseState with buffers := [buf0, buf1] }
      DataFormat.f5x16) = some 16 ∧
    (_allocate_buffers { baseState with buffers := [buf0, buf1] } none sizes4
        DataFormat.f5x16 (fun i => ⟨i, i, i⟩)).2.1.buffers.length = 2 := by
  have h := C4_default_pool_size { baseState with buffers := [buf0, buf1] }
    sizes4 DataFormat.f5x16 (fun i => ⟨i, i, i⟩) 16 rfl
  exact ⟨rfl, by rw [h.2]; rfl⟩

/-- C9: a ROI tuple violating the step constraint (some coordinate not a
multiple of the device's step, steps positive as on any real device) makes
`set_roi` fail with `InvalidGeometry` with NO device call (empty trace) and
the state — cached sizes and dirty flag included — exactly unchanged.  The
hypothesis that the camera description is already cached always holds after
`__init__`, which programs the full-sensor ROI and thereby fills the cache. -/
theorem C9_step_violation_invalid_geometry (st : CamState)
    (x0 y0 x1 y1 : Int) (desc : CamDesc) (drvSizes : Sizes)
    (setRoiStatus : Nat) (hdesc : st.cached_cam_desc = some desc)
    (hh : 0 < desc.wRoiHorStepsDESC) (hv : 0 < desc.wRoiVertStepsDESC)
    (hviol : x0 % (desc.wRoiHorStepsDESC : Int) ≠ 0 ∨
             x1 % (desc.wRoiHorStepsDESC : Int) ≠ 0 ∨
             y0 % (desc.wRoiVertStepsDESC : Int) ≠ 0 ∨
             y1 % (desc.wRoiVertStepsDESC : Int) ≠ 0) :
    ∃ msg, _set_ROI st x0 y0 x1 y1 desc drvSizes setRoiStatus =
      (Except.error (PCOError.invalidGeometry msg), st, []) := by
  unfold _set_ROI _get_camera_description
  simp only [hdesc]
  by_cases hx : x0 % (desc.wRoiHorStepsDESC : Int) ≠ 0 ∨
      x1 % (desc.wRoiHorStepsDESC : Int) ≠ 0
  · refine ⟨"ROI x-coordinates must be a multiple of " ++
      toString desc.wRoiHorStepsDESC, ?_⟩
    rw [if_pos hx]
  · have hy : y0 % (desc.wRoiVertStepsDESC : Int) ≠ 0 ∨
        y1 % (desc.wRoiVertStepsDESC : Int) ≠ 0 := by tauto
    refine ⟨"ROI y-coordinates must be a multiple of " ++
      toString desc.wRoiVertStepsDESC, ?_⟩
    rw [if_neg hx, if_pos hy]

/-- C9 witness: the spec scenario — ROI `(1,0,100,100)` with step 2 fails
with `InvalidGeometry`, state untouched, no driver call. -/
theorem C9_witness :
    ({ baseState with cached_cam_desc := some desc22 } :
        CamState).cached_cam_desc = some desc22 ∧
    0 < desc22.wRoiHorStepsDESC ∧ 0 < desc22.wRoiVertStepsDESC ∧
    (1 : Int) % (desc22.wRoiHorStepsDESC : Int) ≠ 0 ∧
    ∃ msg, _set_ROI { baseState with cached_cam_desc := some desc22 }
        1 0 100 100 desc22 sizes4 0 =
      (Except.error (PCOError.invalidGeometry msg),
       { baseState with cached_cam_desc := some desc22 }, []) := by
  refine ⟨rfl, by decide, by decide, by decide, ?_⟩
  exact C9_step_violation_invalid_geometry
    { baseState with cached_cam_desc := some desc22 } 1 0 100 100 desc22
    sizes4 0 rfl (by decide) (by decide) (Or.inl (by decide))

/-- C3 counterexample: on a 200×200 sensor with hstep = vstep = 1,
`set_roi(0, 0, 100, 100)` does NOT succeed: the source checks the dual-ADC
horizontal symmetry about the sensor centre unconditionally (there is no
"no symmetry requirement" configuration), and `100/2... (100 - 0 ≠ 100 - 100)`
fails it, raising `InvalidGeometry` — contradicting the claim that with unit
steps and no symmetry requirement the call succeeds. -/
theorem C3_counterexample :
    desc11.wRoiHorStepsDESC = 1 ∧ desc11.wRoiVertStepsDESC = 1 ∧
    (_set_ROI { baseState with cached_sizes := ⟨200, 200, 200, 200⟩ }
        0 0 100 100 desc11 ⟨200, 200, 200, 200⟩ 0).1 =
      Except.error (PCOError.invalidGeometry
        "ROI x-coordinates must be symmetric when in dual-ADC mode") :=
  ⟨rfl, rfl, rfl⟩

/-- C3 (amended): `set_roi` always enforces, besides the step constraints,
that the ROI be symmetric about the sensor centre both horizontally
(dual-ADC check) and vertically (pco.edge check).  For every tuple
satisfying steps AND symmetry, with the driver accepting the in-range
request (status 0), `set_roi` succeeds, submits the one-based tuple
`(x0+1, y0+1, x1, y1)` to the driver as its final driver call, and marks the
cached sizes dirty; reading back a driver that echoes that stored tuple,
`get_roi` returns the original logical coordinates `(x0, y0, x1, y1)` —
the round-trip holds through the +1/−1 boundary adjustment.  In particular
the scenario `set_roi(0,0,100,100)` succeeds exactly when it is centred,
e.g. on a 100×100 sensor (see the witness). -/
theorem C3_roi_roundtrip (st : CamState) (x0 y0 x1 y1 : Int) (desc : CamDesc)
    (drvSizes : Sizes) (hdesc : st.cached_cam_desc = some desc)
    (hx0 : x0 % (desc.wRoiHorStepsDESC : Int) = 0)
    (hx1 : x1 % (desc.wRoiHorStepsDESC : Int) = 0)
    (hy0 : y0 % (desc.wRoiVertStepsDESC : Int) = 0)
    (hy1 : y1 % (desc.wRoiVertStepsDESC : Int) = 0)
    (hsx : ((effective_sizes st drvSizes).x_max : Int) / 2 - x0 =
           x1 - ((effective_sizes st drvSizes).x_max : Int) / 2)
    (hsy : ((effective_sizes st drvSizes).y_max : Int) / 2 - y0 =
           y1 - ((effective_sizes st drvSizes).y_max : Int) / 2) :
    (_set_ROI st x0 y0 x1 y1 desc drvSizes 0).1 = Except.ok () ∧
    (_set_ROI st x0 y0 x1 y1 desc drvSizes 0).2.2.getLast? =
      some (DrvCall.setROI (x0 + 1) (y0 + 1) x1 y1) ∧
    (_set_ROI st x0 y0 x1 y1 desc drvSizes 0).2.1.sizes_changed = true ∧
    ∀ st2 : CamState,
      (_get_ROI st2 (x0 + 1, y0 + 1, x1, y1)).1 = (x0, y0, x1, y1) := by
  unfold effective_sizes at hsx hsy
  unfold _set_ROI _get_camera_description
  rw [hdesc]
  cases hsz : st.sizes_changed <;>
    simp_all [_get_sizes, _get_ROI]

/-- C3 witness: the spec scenario on a 100×100 sensor — `(0,0,100,100)` is
centred, `set_roi` succeeds, programs the driver with `(1,1,100,100)`, and
`get_roi` on the echoed tuple returns `(0,0,100,100)`. -/
theorem C3_witness :
    (_set_ROI { baseState with cached_sizes := ⟨100, 100, 100, 100⟩ }
        0 0 100 100 desc11 sizes4 0).1 = Except.ok () ∧
    (_set_ROI { baseState with cached_sizes := ⟨100, 100, 100, 100⟩ }
        0 0 100 100 desc11 sizes4 0).2.2.getLast? =
      some (DrvCall.setROI 1 1 100 100) ∧
    (_get_ROI baseState (1, 1, 100, 100)).1 = (0, 0, 100, 100) := by
  have h := C3_roi_roundtrip
    { baseState with cached_sizes := ⟨100, 100, 100, 100⟩ } 0 0 100 100
    desc11 sizes4 rfl (by decide) (by decide) (by decide) (by decide)
    (by decide) (by decide)
  exact ⟨h.1, h.2.1, h.2.2.2 baseState⟩

/-- C5 counterexample: `get_captured_image` computes the sizes and frame size
BEFORE entering the `try`, so an error raised there — here the
"Unrecognized dataformat" raise of `_data_depth` — propagates with the
cleanup skipped: recording is still on, the queue still holds its buffer,
and neither `SetRecordingState(0)` nor `CancelImages` was issued.  The
claim's "this cleanup is never skipped" is therefore false for this exit
path. -/
theorem C5_counterexample :
    (get_captured_image
        { baseState with cached_dataformat := DataFormat.unknown } 1000
        [(WaitOutcome.signaled, 0)] sizes4 DataFormat.unknown).1 =
      DrainResult.raised PCOError.unrecognizedDataFormat ∧
    (get_captured_image
        { baseState with cached_dataformat := DataFormat.unknown } 1000
        [(WaitOutcome.signaled, 0)] sizes4 DataFormat.unknown).2.1.recording
      = true ∧
    (get_captured_image
        { baseState with cached_dataformat := DataFormat.unknown } 1000
        [(WaitOutcome.signaled, 0)] sizes4 DataFormat.unknown).2.1.queue
      = [buf0] ∧
    DrvCall.setRecordingState false ∉
      (get_captured_image
        { baseState with cached_dataformat := DataFormat.unknown } 1000
        [(WaitOutcome.signaled, 0)] sizes4 DataFormat.unknown).2.2 ∧
    DrvCall.cancelImages ∉
      (get_captured_image
        { baseState with cached_dataformat := DataFormat.unknown } 1000
        [(WaitOutcome.signaled, 0)] sizes4 DataFormat.unknown).2.2 := by
  refine ⟨rfl, rfl, rfl, by decide, by decide⟩

/-- C5 (amended): once the drain phase (the `try` block) is entered — which
happens whenever the up-front size/frame-size computation succeeds, i.e. the
current data format is recognized — every exit path of `get_captured_image`
(normal completion, mid-drain `Timeout`, or any propagated error, for every
possible sequence of wait outcomes and driver statuses) stops recording and
cancels the acquisition queue before returning: the final state has
recording off and an empty queue, and the trace contains both
`SetRecordingState(0)` and `CancelImages`.  Errors raised before the drain
begins (sizes/format queries) propagate without this cleanup. -/
theorem C5_drain_cleanup_unconditional (st : CamState) (timeout : Int)
    (oracle : List (WaitOutcome × Nat)) (drvSizes : Sizes)
    (drvFormat : DataFormat) (d : Nat)
    (hd : depth_map (effective_format st drvFormat) = some d) :
    (get_captured_image st timeout oracle drvSizes drvFormat).2.1.recording
      = false ∧
    (get_captured_image st timeout oracle drvSizes drvFormat).2.1.queue
      = [] ∧
    DrvCall.setRecordingState false ∈
      (get_captured_image st timeout oracle drvSizes drvFormat).2.2 ∧
    DrvCall.cancelImages ∈
      (get_captured_image st timeout oracle drvSizes drvFormat).2.2 := by
  unfold get_captured_image _frame_size _data_depth _clear_queue
  unfold effective_format at hd
  cases hsz : st.sizes_changed <;> cases htp : st.transfer_param_changed <;>
    simp_all [_get_sizes, _get_transfer_parameter]

/-- C5 witness: a drain over one queued buffer whose wait times out —
`Timeout` is raised mid-drain and the cleanup still runs. -/
theorem C5_witness :
    depth_map (effective_format baseState DataFormat.f5x16) = some 16 ∧
    (get_captured_image baseState 1000 [(WaitOutcome.timedOut, 0)] sizes4
        DataFormat.f5x16).1 = DrainResult.raised PCOError.timeout ∧
    (get_captured_image baseState 1000 [(WaitOutcome.timedOut, 0)] sizes4
        DataFormat.f5x16).2.1.recording = false ∧
    (get_captured_image baseState 1000 [(WaitOutcome.timedOut, 0)] sizes4
        DataFormat.f5x16).2.1.queue = [] ∧
    DrvCall.setRecordingState false ∈
      (get_captured_image baseState 1000 [(WaitOutcome.timedOut, 0)] sizes4
        DataFormat.f5x16).2.2 ∧
    DrvCall.cancelImages ∈
      (get_captured_image baseState 1000 [(WaitOutcome.timedOut, 0)] sizes4
        DataFormat.f5x16).2.2 := by
  have h := C5_drain_cleanup_unconditional baseState 1000
    [(WaitOutcome.timedOut, 0)] sizes4 DataFormat.f5x16 16 rfl
  exact ⟨rfl, rfl, h.1, h.2.1, h.2.2.1, h.2.2.2⟩

/-- One successful continuous-mode wait: returns `True`, moves the head
buffer to the tail of the queue, and preserves the shutter mode and the
effective data format. -/
lemma wait_continuous_step (st : CamState) (timeout : Int) (drvSizes : Sizes)
    (drvFormat : DataFormat) (buf : BufferInfo) (rest : List BufferInfo)
    (d : Nat) (hc : st.shutter = some "continuous")
    (hq : st.queue = buf :: rest)
    (hd : depth_map (effective_format st drvFormat) = some d) :
    (wait_for_frame st timeout WaitOutcome.signaled 0 drvSizes drvFormat).1
      = Except.ok true ∧
    (wait_for_frame st timeout WaitOutcome.signaled 0 drvSizes
        drvFormat).2.1.queue = rest ++ [buf] ∧
    (wait_for_frame st timeout WaitOutcome.signaled 0 drvSizes
        drvFormat).2.1.shutter = st.shutter ∧
    effective_format
        (wait_for_frame st timeout WaitOutcome.signaled 0 drvSizes
          drvFormat).2.1 drvFormat = effective_format st drvFormat := by
  unfold wait_for_frame _push_on_queue _data_depth
  unfold effective_format at hd ⊢
  cases hsz : st.sizes_changed <;> cases htp : st.transfer_param_changed <;>
    simp_all [_get_sizes, _get_transfer_parameter, hq, hc]

/-- The queue length is invariant under any number of successful
continuous-mode waits. -/
lemma iterate_waits_queue_length (st : CamState) (n : Nat) (timeout : Int)
    (drvSizes : Sizes) (drvFormat : DataFormat) (d : Nat)
    (hc : st.shutter = some "continuous") (hq : st.queue ≠ [])
    (hd : depth_map (effective_format st drvFormat) = some d) :
    (iterate_waits st n timeout drvSizes drvFormat).queue.length =
      st.queue.length := by
  induction n generalizing st with
  | zero => rfl
  | succ n ih =>
      obtain ⟨buf, rest, hbr⟩ : ∃ b r, st.queue = b :: r := by
        cases h : st.queue with
        | nil => exact absurd h hq
        | cons b r => exact ⟨b, r, rfl⟩
      have step := wait_continuous_step st timeout drvSizes drvFormat buf
        rest d hc hbr hd
      unfold iterate_waits
      rw [ih _ (step.2.2.1.trans hc) (by rw [step.2.1]; simp)
        (by rw [step.2.2.2]; exact hd)]
      rw [step.2.1, hbr]
      simp

/-- C6: in a continuous session (with the current data format recognized, so
the resubmission's driver call can be formed), every successful
`wait_for_frame` pops the completed head buffer and resubmits that same
buffer at the tail of the queue; consequently, for every `N`, after `N`
consecutive successful waits the queue length equals the queue length
before. -/
theorem C6_continuous_waits_queue_length_invariant (st : CamState)
    (timeout : Int) (drvSizes : Sizes) (drvFormat : DataFormat) (d : Nat)
    (hc : st.shutter = some "continuous")
    (hd : depth_map (effective_format st drvFormat) = some d) :
    (∀ buf rest, st.queue = buf :: rest →
      (wait_for_frame st timeout WaitOutcome.signaled 0 drvSizes drvFormat).1
        = Except.ok true ∧
      (wait_for_frame st timeout WaitOutcome.signaled 0 drvSizes
          drvFormat).2.1.queue = rest ++ [buf]) ∧
    (st.queue ≠ [] → ∀ n : Nat,
      (iterate_waits st n timeout drvSizes drvFormat).queue.length =
        st.queue.length) := by
  constructor
  · intro buf rest hbr
    have step := wait_continuous_step st timeout drvSizes drvFormat buf rest
      d hc hbr hd
    exact ⟨step.1, step.2.1⟩
  · intro hq n
    exact iterate_waits_queue_length st n timeout drvSizes drvFormat d hc hq
      hd

/-- C6 witness: a continuous session with two queued buffers; one wait moves
the head to the tail, and after 3 successful waits the queue length is
still 2. -/
theorem C6_witness :
    contState.shutter = some "continuous" ∧
    depth_map (effective_format contState DataFormat.f5x16) = some 16 ∧
    (wait_for_frame contState 100 WaitOutcome.signaled 0 sizes4
        DataFormat.f5x16).2.1.queue = [buf1, buf0] ∧
    (iterate_waits contState 3 100 sizes4
        DataFormat.f5x16).queue.length = 2 := by
  have h := C6_continuous_waits_queue_length_invariant contState 100 sizes4
    DataFormat.f5x16 16 rfl rfl
  refine ⟨rfl, rfl, (h.1 buf0 [buf1] rfl).2, h.2 (by decide) 3⟩

/-- `_push_on_queue` never touches `last_buffer`, on any path. -/
lemma push_on_queue_last_buffer (st : CamState) (drvSizes : Sizes)
    (drvFormat : DataFormat) (buf : BufferInfo) :
    (_push_on_queue st drvSizes drvFormat buf).2.1.last_buffer =
      st.last_buffer := by
  unfold _push_on_queue _data_depth _get_transfer_parameter _get_sizes
  dsimp only
  repeat' split
  all_goals rfl

/-- `_get_sizes` never touches `last_buffer`. -/
lemma get_sizes_last_buffer (st : CamState) (d : Sizes) :
    (_get_sizes st d).2.1.last_buffer = st.last_buffer := by
  unfold _get_sizes
  split <;> rfl

/-- `_get_camera_description` never touches `last_buffer`. -/
lemma get_desc_last_buffer (st : CamState) (d : CamDesc) :
    (_get_camera_description st d).2.1.last_buffer = st.last_buffer := by
  unfold _get_camera_description
  split <;> rfl

/-- `_set_ROI` never touches `last_buffer`, on any path. -/
lemma set_ROI_last_buffer (st : CamState) (x0 y0 x1 y1 : Int)
    (drvDesc : CamDesc) (drvSizes : Sizes) (s : Nat) :
    (_set_ROI st x0 y0 x1 y1 drvDesc drvSizes s).2.1.last_buffer =
      st.last_buffer := by
  unfold _set_ROI
  simp only [ne_eq]
  split_ifs <;>
    simp [get_sizes_last_buffer, get_desc_last_buffer]

/-- C10: a freshly constructed camera has no "last completed" buffer —
`__init__` never assigns `self.last_buffer` — so `latest_frame` on it fails
(Python `AttributeError`) instead of returning a frame; the last-completed
slot is first assigned only by the success path of `wait_for_frame` (event
signaled, zero driver status), which sets it to the popped head buffer,
while every non-success outcome (timeout, wait failure, non-zero driver
status, empty queue) leaves it untouched. -/
theorem C10_latest_frame_requires_successful_wait (drvSizes drvSizes2 : Sizes)
    (drvDesc : CamDesc) (setRoiStatus : Nat) (drvFormat : DataFormat) :
    (pco_camera_init drvSizes drvDesc setRoiStatus).2.1.last_buffer = none ∧
    (latest_frame (pco_camera_init drvSizes drvDesc setRoiStatus).2.1
        drvSizes2 drvFormat).1 =
      Except.error (PCOError.attributeError "last_buffer") ∧
    (∀ (st : CamState) (timeout : Int) (drvS : Sizes) (drvF : DataFormat)
        (buf : BufferInfo) (rest : List BufferInfo), st.queue = buf :: rest →
      (wait_for_frame st timeout WaitOutcome.signaled 0 drvS
          drvF).2.1.last_buffer = some buf) ∧
    (∀ (st : CamState) (timeout : Int) (wres : WaitOutcome) (drv : Nat)
        (drvS : Sizes) (drvF : DataFormat),
      (wres = WaitOutcome.timedOut ∨ wres = WaitOutcome.failed ∨
        drv ≠ 0 ∨ st.queue = []) →
      (wait_for_frame st timeout wres drv drvS
          drvF).2.1.last_buffer = st.last_buffer) := by
  have hinit : (pco_camera_init drvSizes drvDesc
      setRoiStatus).2.1.last_buffer = none := by
    unfold pco_camera_init
    rw [set_ROI_last_buffer]
    simp [_get_sizes]
  refine ⟨hinit, ?_, ?_, ?_⟩
  · unfold latest_frame
    simp only [hinit]
  · intro st timeout drvS drvF buf rest hq
    unfold wait_for_frame
    simp only [hq, ne_eq, not_true_eq_false, ite_false]
    split
    · split
      · rw [push_on_queue_last_buffer]
      · rw [push_on_queue_last_buffer]
    · rfl
  · intro st timeout wres drv drvS drvF hcase
    cases hq : st.queue with
    | nil => simp [wait_for_frame, hq]
    | cons b r =>
        rcases hcase with h | h | h | h
        · subst h; simp [wait_for_frame, hq]
        · subst h; simp [wait_for_frame, hq]
        · cases wres <;> simp [wait_for_frame, hq, h]
        · rw [hq] at h; cases h

/-- C10 witness: concrete fresh camera (4×4 sensor, full-ROI programming
accepted), and the success/non-success assignment behaviour at a concrete
mid-session state. -/
theorem C10_witness :
    (pco_camera_init sizes4 desc11 0).2.1.last_buffer = none ∧
    (latest_frame (pco_camera_init sizes4 desc11 0).2.1 sizes4
        DataFormat.f5x16).1 =
      Except.error (PCOError.attributeError "last_buffer") ∧
    (wait_for_frame baseState 5 WaitOutcome.signaled 0 sizes4
        DataFormat.f5x16).2.1.last_buffer = some buf0 ∧
    (wait_for_frame baseState 5 WaitOutcome.timedOut 0 sizes4
        DataFormat.f5x16).2.1.last_buffer = baseState.last_buffer := by
  have h := C10_latest_frame_requires_successful_wait sizes4 sizes4 desc11 0
    DataFormat.f5x16
  exact ⟨h.1, h.2.1,
    h.2.2.1 baseState 5 sizes4 DataFormat.f5x16 buf0 [] rfl,
    h.2.2.2 baseState 5 WaitOutcome.timedOut 0 sizes4 DataFormat.f5x16
      (Or.inl rfl)⟩

end PCO
